import Mathlib

/-!
Shallow embedding of the `langextract_samples` repository
(`src/langextract_samples/runner.py`, `src/langextract_samples/datasets.py`).

Strings that flow through the artifact-name machinery are modelled as
`List Char`; Python string operations (`split`, `replace`, `startswith`)
are embedded as executable functions on `List Char` with Python's
semantics (leftmost non-overlapping matches for `split`/`replace`).
-/

namespace LXS

/-- Python `s.replace(old, new)` for single-character `old`/`new`:
a character-wise map. -/
def replaceChar (old new : Char) (l : List Char) : List Char :=
  l.map (fun c => if c = old then new else c)

/-- Python `s.split("__")`: split on the two-character separator `"__"`,
taking leftmost non-overlapping occurrences.  The result is never empty;
an input without the separator yields the singleton of the whole input. -/
def splitOnDU : List Char → List (List Char)
  | [] => [[]]
  | [c] => [[c]]
  | c :: d :: rest =>
    if c = '_' ∧ d = '_' then
      [] :: splitOnDU rest
    else
      (c :: (splitOnDU (d :: rest)).headD []) :: (splitOnDU (d :: rest)).tail

/-- Python `s.replace("pass", "")`: delete leftmost non-overlapping
occurrences of `"pass"`. -/
def stripPass : List Char → List Char
  | 'p' :: 'a' :: 's' :: 's' :: rest => stripPass rest
  | c :: rest => c :: stripPass rest
  | [] => []

/-- Whether the two-character separator `"__"` occurs in `l`
(Python `"__" in s`). -/
def containsDU : List Char → Bool
  | [] => false
  | [_] => false
  | c :: d :: rest => if c = '_' ∧ d = '_' then true else containsDU (d :: rest)

/-- `runner.run_dataset`, line 57:
`friendly_model = model_id.replace("/", "_").replace(":", "_")`. -/
def friendlyModel (model_id : List Char) : List Char :=
  replaceChar ':' '_' (replaceChar '/' '_' model_id)

/-- `runner.run_dataset`, line 58: the artifact filename stem
`f"{dataset_key}__{friendly_model}__pass{extraction_passes}"`
(the local variable is called `prefix` in the source). -/
def artifactStem (dataset_key : List Char) (model_id : List Char)
    (extraction_passes : Nat) : List Char :=
  dataset_key ++ '_' :: '_' ::
    (friendlyModel model_id ++ '_' :: '_' ::
      ('p' :: 'a' :: 's' :: 's' :: (Nat.repr extraction_passes).data))

/-- The dict returned by `runner._parse_artifact_metadata`
(keys `dataset`, `model`, `passes`, `prefix`; the last one is called
`stem` here). -/
structure ArtifactMeta where
  dataset : List Char
  model : List Char
  passes : List Char
  stem : List Char
  deriving DecidableEq, Repr

/-- `runner._parse_artifact_metadata` (runner.py lines 62-74). -/
def parse_artifact_metadata (stem : List Char) : ArtifactMeta :=
  let parts := splitOnDU stem
  let dataset_name := parts.headD []
  let model_name := parts.getD 1 []
  let pass_part := parts.getD 2 []
  let pass_count :=
    if List.isPrefixOf ['p', 'a', 's', 's'] pass_part then stripPass pass_part
    else []
  { dataset := dataset_name
    model := replaceChar '_' ' ' model_name
    passes := if pass_count = [] then ['1'] else pass_count
    stem := stem }

/-! ### Data model of `datasets.py` -/

/-- `lx.data.CharInterval` as used by `datasets._format_position`
(fields `start_pos`, `end_pos`). -/
structure CharInterval where
  start_pos : Nat
  end_pos : Nat
  deriving DecidableEq, Repr

/-- `lx.data.Extraction`: one annotated span.  `attributes` is Python
`Optional[Dict[str, str]]`, modelled as an optional association list;
`char_interval` is optional. -/
structure Extraction where
  extraction_class : String
  extraction_text : String
  attributes : Option (List (String × String)) := none
  char_interval : Option CharInterval := none
  deriving DecidableEq, Repr

/-- `lx.data.ExampleData`: a few-shot example text with its extractions. -/
structure ExampleData where
  text : String
  extractions : List Extraction
  deriving DecidableEq, Repr

/-- The summary functions are referenced by the registry; in the source they
are the function values `_basic_summary` / `_relationship_summary`. -/
inductive SummaryKind where
  | basic
  | relationship
  deriving DecidableEq, Repr

/-- `datasets.DatasetConfig` (datasets.py lines 17-29).  The dataclass field
`artifact_prefix` is called `artifact_stem` here; `build_examples` is a
zero-argument callable in the source and is modelled by the list it
returns. -/
structure DatasetConfig where
  key : String
  title : String
  description : String
  prompt_description : String
  default_input_text : String
  default_model_id : String
  artifact_stem : String
  build_examples : List ExampleData
  summary_fn : Option SummaryKind := none
  deriving DecidableEq, Repr

/-- `datasets._build_romeo_examples`. -/
def build_romeo_examples : List ExampleData :=
  [{ text := "ROMEO. But soft! What light through yonder window breaks? It is the east, and Juliet is the sun."
     extractions :=
      [{ extraction_class := "character"
         extraction_text := "ROMEO"
         attributes := some [("emotional_state", "wonder")] },
       { extraction_class := "emotion"
         extraction_text := "But soft!"
         attributes := some [("feeling", "gentle awe")] },
       { extraction_class := "relationship"
         extraction_text := "Juliet is the sun"
         attributes := some [("type", "metaphor")] }] }]

/-- `datasets._build_medication_ner_examples`. -/
def build_medication_ner_examples : List ExampleData :=
  [{ text := "Patient was given 250 mg IV Cefazolin TID for one week."
     extractions :=
      [{ extraction_class := "dosage", extraction_text := "250 mg" },
       { extraction_class := "route", extraction_text := "IV" },
       { extraction_class := "medication", extraction_text := "Cefazolin" },
       { extraction_class := "frequency", extraction_text := "TID" },
       { extraction_class := "duration", extraction_text := "for one week" }] }]

/-- `datasets._build_medication_relationship_examples`. -/
def build_medication_relationship_examples : List ExampleData :=
  [{ text := "Patient takes Aspirin 100mg daily for heart health and Simvastatin 20mg at bedtime."
     extractions :=
      [{ extraction_class := "medication"
         extraction_text := "Aspirin"
         attributes := some [("medication_group", "Aspirin")] },
       { extraction_class := "dosage"
         extraction_text := "100mg"
         attributes := some [("medication_group", "Aspirin")] },
       { extraction_class := "frequency"
         extraction_text := "daily"
         attributes := some [("medication_group", "Aspirin")] },
       { extraction_class := "condition"
         extraction_text := "heart health"
         attributes := some [("medication_group", "Aspirin")] },
       { extraction_class := "medication"
         extraction_text := "Simvastatin"
         attributes := some [("medication_group", "Simvastatin")] },
       { extraction_class := "dosage"
         extraction_text := "20mg"
         attributes := some [("medication_group", "Simvastatin")] },
       { extraction_class := "frequency"
         extraction_text := "at bedtime"
         attributes := some [("medication_group", "Simvastatin")] }] }]

/-- `datasets.ROMEO_PROMPT` (after `textwrap.dedent`). -/
def ROMEO_PROMPT : String :=
  "Extract characters, emotions, and relationships in order of appearance.\nUse exact text for extractions. Do not paraphrase or overlap entities.\nProvide meaningful attributes for each entity to add context."

/-- `datasets.DEFAULT_REL_INPUT` (after `textwrap.dedent`). -/
def DEFAULT_REL_INPUT : String :=
  "The patient was prescribed Lisinopril and Metformin last month.\nHe takes the Lisinopril 10mg daily for hypertension, but often misses\nhis Metformin 500mg dose which should be taken twice daily for diabetes.\n"

/-- The `"romeo_quickstart"` entry of `datasets.DATASETS`. -/
def romeo_quickstart_config : DatasetConfig :=
  { key := "romeo_quickstart"
    title := "Romeo & Juliet Quick Start"
    description := "Characters, emotions, and relationships using the README example."
    prompt_description := ROMEO_PROMPT
    default_input_text := "Lady Juliet gazed longingly at the stars, her heart aching for Romeo."
    default_model_id := "gemini-2.5-flash-lite"
    artifact_stem := "romeo_juliet_basic"
    build_examples := build_romeo_examples
    summary_fn := some .basic }

/-- The `"medication_ner"` entry of `datasets.DATASETS`. -/
def medication_ner_config : DatasetConfig :=
  { key := "medication_ner"
    title := "Medication Named Entity Recognition"
    description := "Extract medication name, dosage, route, frequency, and duration from simple sentences."
    prompt_description := "Extract medication information including medication name, dosage, route, frequency, and duration in the order they appear in the text."
    default_input_text := "Patient took 400 mg PO Ibuprofen q4h for two days."
    default_model_id := "gemini-2.5-pro"
    artifact_stem := "medication_ner"
    build_examples := build_medication_ner_examples
    summary_fn := some .basic }

/-- The `"medication_relationship"` entry of `datasets.DATASETS`. -/
def medication_relationship_config : DatasetConfig :=
  { key := "medication_relationship"
    title := "Medication Relationship Extraction"
    description := "Group medication details using medication_group attributes to link dosage, frequency, and indications."
    prompt_description := "Extract medications with their details, using attributes to group related information:\n\n1. Extract entities in the order they appear in the text\n2. Each entity must have a \x27medication_group\x27 attribute linking it to its medication\n3. All details about a medication should share the same medication_group value\n"
    default_input_text := DEFAULT_REL_INPUT
    default_model_id := "gemini-2.5-pro"
    artifact_stem := "medication_relationship"
    build_examples := build_medication_relationship_examples
    summary_fn := some .relationship }

/-- `datasets.DATASETS` (datasets.py lines 188-241): an insertion-ordered
mapping written directly in the source as a dict literal. -/
def DATASETS : List (String × DatasetConfig) :=
  [("romeo_quickstart", romeo_quickstart_config),
   ("medication_ner", medication_ner_config),
   ("medication_relationship", medication_relationship_config)]

/-- `datasets.get_dataset` (datasets.py lines 244-248); the `KeyError` is
modelled as `Except.error` carrying the formatted message. -/
def get_dataset (key : String) : Except String DatasetConfig :=
  match DATASETS.find? (fun p => p.1 = key) with
  | some p => Except.ok p.2
  | none => Except.error ("Unknown dataset: " ++ key)

/-- `datasets.list_dataset_keys`: the keys in insertion order. -/
def list_dataset_keys : List String :=
  DATASETS.map Prod.fst

/-- Modelled from the spec (spec.md section 4.1), which describes a registry
load algorithm that does not exist in `datasets.py`: search, in priority
order, a primary per-dataset-JSON-file directory, then a legacy bundled
directory, then a legacy single aggregated JSON file, stopping at the first
source that yields any entries.  Each argument is the list of entries the
corresponding source yields. -/
def spec_load_registry (primaryDir legacyDir aggregatedFile : List (String × DatasetConfig)) :
    List (String × DatasetConfig) :=
  if primaryDir ≠ [] then primaryDir
  else if legacyDir ≠ [] then legacyDir
  else aggregatedFile

/-! ### The console summaries of `datasets.py` -/

/-- `lx.data.AnnotatedDocument` as consumed by the summary functions: the
annotated input text with its ordered extraction results. -/
structure AnnotatedDocument where
  text : String := ""
  extractions : List Extraction
  deriving DecidableEq, Repr

/-- `datasets._format_position`: the optional ` (pos: start-end)` suffix
(empty when `char_interval` is `None`). -/
def format_position (extraction : Extraction) : String :=
  match extraction.char_interval with
  | none => ""
  | some iv => " (pos: " ++ Nat.repr iv.start_pos ++ "-" ++ Nat.repr iv.end_pos ++ ")"

/-- Python `str.capitalize()`: first character upper-cased, the rest
lower-cased. -/
def capitalize (s : String) : String :=
  match s.data with
  | [] => ""
  | c :: rest => String.mk (c.toUpper :: rest.map Char.toLower)

/-- The `medication_group` attribute of an extraction as the grouping loop
of `datasets._relationship_summary` sees it:
`(extraction.attributes or {}).get("medication_group")` followed by the
falsiness test `if not group_name` — a missing attribute dict, a missing
key, and an empty-string value all yield `none`. -/
def effGroup (e : Extraction) : Option String :=
  match (e.attributes.getD []).lookup "medication_group" with
  | some g => if g = "" then none else some g
  | none => none

/-- The warning line `_relationship_summary` prints for an extraction with
no usable `medication_group`. -/
def warnLine (e : Extraction) : String :=
  "  ⚠ Missing medication_group for " ++ e.extraction_text

/-- The warning line for `e`, as an optional value (for stating what the
grouping loop appends to the console output). -/
def warnOf (e : Extraction) : Option String :=
  match effGroup e with
  | none => some (warnLine e)
  | some _ => none

/-- `medication_groups.setdefault(group_name, []).append(extraction)`:
append `e` to the entry of `g` in the insertion-ordered mapping `gs`,
creating the entry at the end if absent. -/
def addToGroups (gs : List (String × List Extraction)) (g : String) (e : Extraction) :
    List (String × List Extraction) :=
  match gs with
  | [] => [(g, [e])]
  | (k, es) :: rest =>
    if k = g then (k, es ++ [e]) :: rest else (k, es) :: addToGroups rest g e

/-- The first loop of `datasets._relationship_summary` (lines 59-64): walk
the extractions in order, printing a warning for each one without a usable
`medication_group` and grouping the others; returns the printed warning
lines and the built `medication_groups` mapping. -/
def relLoop (lines : List String) (gs : List (String × List Extraction)) :
    List Extraction → List String × List (String × List Extraction)
  | [] => (lines, gs)
  | e :: rest =>
    match effGroup e with
    | none => relLoop (lines ++ [warnLine e]) gs rest
    | some g => relLoop lines (addToGroups gs g e) rest

/-- The entries stored under key `g` (empty when the key is absent). -/
def groupEntries (gs : List (String × List Extraction)) (g : String) : List Extraction :=
  ((gs.find? (fun p => p.1 = g)).map Prod.snd).getD []

/-- The keys of the grouping in insertion order. -/
def groupKeys (gs : List (String × List Extraction)) : List String :=
  gs.map Prod.fst

/-- `datasets._relationship_summary` (lines 52-72) as the list of console
lines it prints: input echo, header, per-extraction warnings, then one
section per medication group. -/
def relationship_summary_lines (result : AnnotatedDocument) (input_text : String) :
    List String :=
  let wg := relLoop [] [] result.extractions
  ("Input text: " ++ input_text.trim ++ "\n") :: "Extracted medications:" ::
    wg.1 ++ (wg.2.map (fun p =>
      ("\n* " ++ p.1) :: p.2.map (fun e =>
        "  • " ++ capitalize e.extraction_class ++ ": "
          ++ e.extraction_text ++ format_position e))).flatten

/-! ### CLI resolution logic of `runner.run_cli` -/

/-- Python truthiness of an optional CLI string value: `None` and the empty
string are falsy. -/
def pyTruthy : Option String → Bool
  | none => false
  | some s => s != ""

/-- Python values that can come out of an attribute access on a
`DatasetConfig` (or out of the `or`-resolution against a CLI integer
override). -/
inductive PyAttr where
  | str : String → PyAttr
  | int : Int → PyAttr
  | examples : List ExampleData → PyAttr
  | summary : Option SummaryKind → PyAttr
  deriving DecidableEq, Repr

/-- Python attribute access on a `DatasetConfig` instance: the frozen
dataclass declares exactly the nine fields of datasets.py lines 21-29
(`artifact_prefix` is the source name of `artifact_stem`); any other
attribute name raises `AttributeError`. -/
def configGetattr (c : DatasetConfig) : String → Except String PyAttr
  | "key" => Except.ok (.str c.key)
  | "title" => Except.ok (.str c.title)
  | "description" => Except.ok (.str c.description)
  | "prompt_description" => Except.ok (.str c.prompt_description)
  | "default_input_text" => Except.ok (.str c.default_input_text)
  | "default_model_id" => Except.ok (.str c.default_model_id)
  | "artifact_prefix" => Except.ok (.str c.artifact_stem)
  | "build_examples" => Except.ok (.examples c.build_examples)
  | "summary_fn" => Except.ok (.summary c.summary_fn)
  | name => Except.error ("AttributeError: DatasetConfig object has no attribute " ++ name)

/-- `runner.run_cli` line 669:
`extraction_passes = args.extraction_passes or config.extraction_passes`.
The left operand is the CLI override (`None` when absent, falsy when `0`);
the right operand is an attribute access on the config. -/
def resolve_extraction_passes (override : Option Int) (config : DatasetConfig) :
    Except String PyAttr :=
  match override with
  | some n => if n = 0 then configGetattr config "extraction_passes" else Except.ok (.int n)
  | none => configGetattr config "extraction_passes"

/-- `runner.run_cli` lines 658-662: the input-text override.
`input_file_contents` carries the contents of the file when `--input-file`
is given (with a truthy path); otherwise a truthy `--input-text` is used. -/
def resolve_input_text_override (input_file_contents : Option String)
    (input_text : Option String) : Option String :=
  match input_file_contents with
  | some contents => some contents
  | none =>
    match input_text with
    | some t => if t = "" then none else some t
    | none => none

/-- `runner.run_cli` line 668:
`input_text = input_text_override or config.default_input_text`. -/
def resolve_input_text (override : Option String) (config : DatasetConfig) : String :=
  match override with
  | some t => if t = "" then config.default_input_text else t
  | none => config.default_input_text

/-- `runner.run_cli` line 667:
`model_id = args.model_id or config.default_model_id`. -/
def resolve_model_id (override : Option String) (config : DatasetConfig) : String :=
  match override with
  | some m => if m = "" then config.default_model_id else m
  | none => config.default_model_id

/-- `runner.run_cli` lines 643-651: reconcile the `--dataset` flag with the
positional dataset argument.  When both are truthy and differ the parser
errors out (before any dataset is run); otherwise the selection is
`args.dataset or positional_value`. -/
def select_dataset (dataset positional : Option String) : Except String (Option String) :=
  if pyTruthy dataset ∧ pyTruthy positional ∧ dataset ≠ positional then
    Except.error "--dataset and positional dataset argument must match."
  else
    Except.ok (if pyTruthy dataset then dataset else positional)

/-! ### The outputs index builder of `runner.py` -/

/-- `pathlib.PurePath.suffix`: the extension from the last dot, but only
when the dot is neither the first nor the last character of the name. -/
def pathSuffix (name : String) : String :=
  let cs := name.data
  match cs.reverse.findIdx? (fun c => c = '.') with
  | none => ""
  | some j =>
    let i := cs.length - 1 - j
    if 0 < i ∧ i < cs.length - 1 then String.mk (cs.drop i) else ""

/-- `pathlib.PurePath.stem`: the name without `pathSuffix`. -/
def pathStem (name : String) : String :=
  let cs := name.data
  match cs.reverse.findIdx? (fun c => c = '.') with
  | none => name
  | some j =>
    let i := cs.length - 1 - j
    if 0 < i ∧ i < cs.length - 1 then String.mk (cs.take i) else name

/-- Python `str.lower()` (ASCII, which is all the file names use). -/
def strLower (s : String) : String :=
  String.mk (s.data.map Char.toLower)

/-- The names `_update_outputs_index` skips before looking at suffixes. -/
def specialNames : List String :=
  ["index.html", "jsonl_viewer.html", "comparison.html"]

/-- Whether a directory entry counts as an artifact file for the scan of
`_update_outputs_index` (runner.py lines 266-273): not one of the generated
pages, and with a `.jsonl`/`.html` suffix. -/
def isArtifactFile (name : String) : Bool :=
  if name ∈ specialNames then false
  else decide (strLower (pathSuffix name) = ".jsonl" ∨ strLower (pathSuffix name) = ".html")

/-- One value of the `artifacts` dict of `_update_outputs_index`
(runner.py line 277). -/
structure ArtEntry where
  dataset : String
  jsonl : Option String := none
  html : Option String := none
  metadata : Option ArtifactMeta := none
  deriving DecidableEq, Repr

/-- `artifacts.setdefault(stem, {...})` followed by a mutation of the entry:
update the insertion-ordered association list at `stem`, creating the
default entry first when absent. -/
def updateArtifacts (arts : List (String × ArtEntry)) (stem : String)
    (upd : ArtEntry → ArtEntry) : List (String × ArtEntry) :=
  match arts with
  | [] => [(stem, upd { dataset := stem })]
  | (k, e) :: rest =>
    if k = stem then (k, upd e) :: rest else (k, e) :: updateArtifacts rest stem upd

/-- `jsonl_blobs[stem] = ...`: dict assignment on an insertion-ordered
association list. -/
def setBlob (bs : List (String × String)) (k v : String) : List (String × String) :=
  match bs with
  | [] => [(k, v)]
  | (k', v') :: rest =>
    if k' = k then (k, v) :: rest else (k', v') :: setBlob rest k v

/-- One iteration of the directory scan of `_update_outputs_index`
(runner.py lines 266-286).  A file is given as `(name, contents)`; the
base64 transport encoding of the blob is a bijection and is modelled by the
raw text. -/
def scanStep (acc : List (String × ArtEntry) × List (String × String))
    (file : String × String) : List (String × ArtEntry) × List (String × String) :=
  if file.1 ∈ specialNames then acc
  else
    let suffix := strLower (pathSuffix file.1)
    if suffix = ".jsonl" ∨ suffix = ".html" then
      let stem := pathStem file.1
      if suffix = ".jsonl" then
        (updateArtifacts acc.1 stem (fun e =>
          { e with jsonl := some file.1
                   metadata := some (parse_artifact_metadata stem.data) }),
         setBlob acc.2 stem file.2)
      else
        (updateArtifacts acc.1 stem (fun e => { e with html := some file.1 }), acc.2)
    else acc

/-- The full directory scan: artifacts and JSONL blobs, in first-seen
order. -/
def scanFiles (files : List (String × String)) :
    List (String × ArtEntry) × List (String × String) :=
  files.foldl scanStep ([], [])

/-- `item["metadata"] or _parse_artifact_metadata(item["dataset"])`. -/
def entryMeta (e : ArtEntry) : ArtifactMeta :=
  e.metadata.getD (parse_artifact_metadata e.dataset.data)

/-- Python `int(...)` on the decimal pass-count strings the sort keys use. -/
def digitsToNat (s : List Char) : Nat :=
  s.foldl (fun acc c => acc * 10 + (c.toNat - '0'.toNat)) 0

/-- Lexicographic comparison of strings as Python compares them. -/
def listCharLe : List Char → List Char → Bool
  | [], _ => true
  | _ :: _, [] => false
  | x :: xs, y :: ys => if x = y then listCharLe xs ys else decide (x < y)

/-- The sort key of `sorted_entries` (runner.py lines 290-301):
`(dataset, model, int(passes))`. -/
def entryLe (x y : ArtEntry) : Bool :=
  let mx := entryMeta x
  let my := entryMeta y
  if mx.dataset ≠ my.dataset then listCharLe mx.dataset my.dataset
  else if mx.model ≠ my.model then listCharLe mx.model my.model
  else decide (digitsToNat mx.passes ≤ digitsToNat my.passes)

/-- `html.escape` with its default quoting. -/
def htmlEscape (s : String) : String :=
  String.join (s.data.map (fun c =>
    if c = '&' then "&amp;"
    else if c = '<' then "&lt;"
    else if c = '>' then "&gt;"
    else if c = '"' then "&quot;"
    else if c = Char.ofNat 39 then "&#x27;"
    else String.mk [c]))

/-- An upper-case hexadecimal digit. -/
def hexDigitUpper (n : Nat) : Char :=
  if n < 10 then Char.ofNat ('0'.toNat + n) else Char.ofNat ('A'.toNat + n - 10)

/-- `urllib.parse.quote` for the single-byte code points the artifact names
consist of: unreserved characters and `'/'` kept, anything else
percent-encoded. -/
def urlQuote (s : String) : String :=
  String.join (s.data.map (fun c =>
    if c.isAlphanum ∨ c ∈ ['_', '.', '-', '~', '/'] then String.mk [c]
    else "%" ++ String.mk [hexDigitUpper (c.toNat / 16 % 16), hexDigitUpper (c.toNat % 16)]))

/-- One `<tr>` of the index table (runner.py lines 303-327). -/
def rowHtml (blobs : List (String × String)) (e : ArtEntry) : String :=
  let meta := entryMeta e
  let jsonl_cell :=
    match e.jsonl with
    | some jn =>
      let href := "jsonl_viewer.html?file=" ++ urlQuote jn
      let href :=
        match blobs.lookup e.dataset with
        | some blob => if blob = "" then href else href ++ "&data=" ++ urlQuote blob
        | none => href
      "<a href=\"" ++ htmlEscape href ++ "\">" ++ htmlEscape jn ++ "</a>"
    | none => "-"
  let html_cell :=
    match e.html with
    | some hn => "<a href=\"" ++ htmlEscape hn ++ "\">" ++ htmlEscape hn ++ "</a>"
    | none => "-"
  "<tr>" ++ "<td>" ++ htmlEscape (String.mk meta.dataset) ++ "</td>"
    ++ "<td>" ++ htmlEscape (String.mk meta.model) ++ "</td>"
    ++ "<td>" ++ htmlEscape (String.mk meta.passes) ++ "</td>"
    ++ "<td>" ++ jsonl_cell ++ "</td>"
    ++ "<td>" ++ html_cell ++ "</td>"
    ++ "</tr>"

/-- The rows of the regenerated index page, in sorted order. -/
def indexRows (files : List (String × String)) : List String :=
  let sc := scanFiles files
  ((sc.1.map Prod.snd).mergeSort entryLe).map (rowHtml sc.2)

/-- The `body` fragment of the regenerated `index.html`
(runner.py lines 328-337): the placeholder paragraph when there are no
rows, the artifact table otherwise. -/
def indexBody (files : List (String × String)) : String :=
  let rows := indexRows files
  if rows = [] then "<p>No artifacts have been generated yet.</p>"
  else
    "<table>\n"
      ++ "  <thead><tr><th>Dataset</th><th>Model</th><th>Passes</th><th>JSONL</th><th>HTML</th></tr></thead>\n"
      ++ "  <tbody>\n    "
      ++ String.intercalate "\n    " rows
      ++ "\n  </tbody>\n</table>"

/-- One run entry of the comparison-viewer manifest
(runner.py lines 378-384). -/
structure ManifestRun where
  model : List Char
  passes : List Char
  file : String
  data : String
  deriving DecidableEq, Repr

/-- Append a run to the manifest entry of `dataset_name` (which is already
present). -/
def appendRun (m : List (List Char × List ManifestRun)) (k : List Char)
    (r : ManifestRun) : List (List Char × List ManifestRun) :=
  match m with
  | [] => []
  | (k', rs) :: rest =>
    if k' = k then (k', rs ++ [r]) :: rest else (k', rs) :: appendRun rest k r

/-- One iteration of the manifest-building loop of
`_ensure_comparison_viewer` (runner.py lines 371-384). -/
def manifestStep (blobs : List (String × String))
    (m : List (List Char × List ManifestRun)) (p : String × ArtEntry) :
    List (List Char × List ManifestRun) :=
  let meta := entryMeta p.2
  let m1 := if meta.dataset ∈ m.map Prod.fst then m else m ++ [(meta.dataset, [])]
  match p.2.jsonl with
  | some f =>
    appendRun m1 meta.dataset
      { model := meta.model
        passes := meta.passes
        file := f
        data := (blobs.lookup p.1).getD "" }
  | none => m1

/-- The sort key for the runs of one dataset (runner.py line 388):
`(model, int(passes))`. -/
def runLe (x y : ManifestRun) : Bool :=
  if x.model ≠ y.model then listCharLe x.model y.model
  else decide (digitsToNat x.passes ≤ digitsToNat y.passes)

/-- The embedded manifest of the regenerated `comparison.html`
(runner.py lines 370-388): per-dataset run lists, each sorted by
`(model, int(passes))`. -/
def comparisonManifest (files : List (String × String)) :
    List (List Char × List ManifestRun) :=
  let sc := scanFiles files
  (sc.1.foldl (manifestStep sc.2) []).map (fun p => (p.1, p.2.mergeSort runLe))

/-! ### Helper lemmas about the string machinery -/

theorem stripPass_cons_ne (c : Char) (rest : List Char) (hc : c ≠ 'p') :
    stripPass (c :: rest) = c :: stripPass rest := by
  rw [stripPass.eq_def]
  split
  · next r heq =>
      injection heq with h1 _
      exact absurd h1 hc
  · next heq =>
      injection heq with h1 h2
      rw [h1, h2]
  · next heq => simp at heq

theorem stripPass_of_no_p : ∀ l : List Char, (∀ c ∈ l, c ≠ 'p') → stripPass l = l := by
  intro l
  induction l with
  | nil => intro _; rfl
  | cons c rest ih =>
    intro h
    rw [stripPass_cons_ne c rest (h c (by simp)),
      ih (fun x hx => h x (List.mem_cons_of_mem _ hx))]

theorem splitOnDU_ne_nil (l : List Char) : splitOnDU l ≠ [] := by
  match l with
  | [] => simp [splitOnDU]
  | [c] => simp [splitOnDU]
  | c :: d :: rest =>
    rw [splitOnDU]
    split <;> simp

theorem splitOnDU_no_sep : ∀ l : List Char, containsDU l = false → splitOnDU l = [l] := by
  intro l
  induction l with
  | nil => intro _; rfl
  | cons c rest ih =>
    intro h
    cases rest with
    | nil => rfl
    | cons d rest' =>
      rw [containsDU] at h
      rw [splitOnDU]
      split
      · next hp => rw [if_pos hp] at h; exact absurd h (by simp)
      · next hp =>
        rw [if_neg hp] at h
        rw [ih h]
        rfl

theorem splitOnDU_append (rest : List Char) :
    ∀ a : List Char, containsDU a = false → a.getLast? ≠ some '_' →
      splitOnDU (a ++ '_' :: '_' :: rest) = a :: splitOnDU rest := by
  intro a
  induction a with
  | nil => intro _ _; simp [splitOnDU]
  | cons c a' ih =>
    intro h1 h2
    cases a' with
    | nil =>
      have hc : c ≠ '_' := by
        simp [List.getLast?] at h2
        exact h2
      show splitOnDU (c :: '_' :: '_' :: rest) = [c] :: splitOnDU rest
      rw [splitOnDU, if_neg (by intro hp; exact hc hp.1)]
      rw [splitOnDU, if_pos ⟨rfl, rfl⟩]
      rfl
    | cons c' a'' =>
      rw [containsDU] at h1
      have h2' : (c' :: a'').getLast? ≠ some '_' := by
        rwa [List.getLast?_cons_cons] at h2
      split at h1
      · exact absurd h1 (by simp)
      · next hp =>
        have := ih h1 h2'
        show splitOnDU (c :: c' :: (a'' ++ '_' :: '_' :: rest))
          = (c :: c' :: a'') :: splitOnDU rest
        rw [splitOnDU, if_neg hp]
        have hcc : c' :: (a'' ++ '_' :: '_' :: rest) = (c' :: a'') ++ '_' :: '_' :: rest := rfl
        rw [hcc, this]
        rfl

theorem digitChar_ne : ∀ n : Nat, Nat.digitChar n ≠ '_' ∧ Nat.digitChar n ≠ 'p' := by
  intro n
  match n with
  | 0 | 1 | 2 | 3 | 4 | 5 | 6 | 7 | 8 | 9 | 10 | 11 | 12 | 13 | 14 | 15 => decide
  | (m+16) =>
    unfold Nat.digitChar
    repeat rw [if_neg (by omega)]
    decide

theorem toDigitsCore_ne :
    ∀ (fuel n : Nat) (acc : List Char), (∀ c ∈ acc, c ≠ '_' ∧ c ≠ 'p') →
      ∀ c ∈ Nat.toDigitsCore 10 fuel n acc, c ≠ '_' ∧ c ≠ 'p' := by
  intro fuel
  induction fuel with
  | zero => intro n acc hacc; exact hacc
  | succ fuel ih =>
    intro n acc hacc c hc
    rw [Nat.toDigitsCore] at hc
    split at hc
    · rcases List.mem_cons.mp hc with h | h
      · rw [h]; exact digitChar_ne _
      · exact hacc c h
    · refine ih _ _ ?_ c hc
      intro x hx
      rcases List.mem_cons.mp hx with h | h
      · rw [h]; exact digitChar_ne _
      · exact hacc x h

theorem repr_data_ne (n : Nat) : ∀ c ∈ (Nat.repr n).data, c ≠ '_' ∧ c ≠ 'p' := by
  intro c hc
  exact toDigitsCore_ne (n+1) n [] (by simp) c hc

theorem toDigitsCore_ne_nil :
    ∀ (fuel n : Nat) (acc : List Char), fuel ≠ 0 ∨ acc ≠ [] →
      Nat.toDigitsCore 10 fuel n acc ≠ [] := by
  intro fuel
  induction fuel with
  | zero =>
    intro n acc h
    rcases h with h | h
    · exact absurd rfl h
    · exact h
  | succ fuel ih =>
    intro n acc _
    rw [Nat.toDigitsCore]
    split
    · simp
    · exact ih _ _ (Or.inr (by simp))

theorem repr_data_ne_nil (n : Nat) : (Nat.repr n).data ≠ [] :=
  toDigitsCore_ne_nil (n+1) n [] (Or.inl (by simp))

theorem containsDU_of_no_u : ∀ l : List Char, (∀ c ∈ l, c ≠ '_') → containsDU l = false := by
  intro l
  induction l with
  | nil => intro _; rfl
  | cons c rest ih =>
    intro h
    cases rest with
    | nil => rfl
    | cons d rest' =>
      rw [containsDU, if_neg (fun hp => h c (by simp) hp.1)]
      exact ih (fun x hx => h x (List.mem_cons_of_mem _ hx))

/-- Splitting the derived artifact stem recovers the three segments, given
that the dataset key and the substituted model contain no `"__"` and do not
end in `'_'`. -/
theorem splitOnDU_artifactStem (d m : List Char) (p : Nat)
    (hd1 : containsDU d = false) (hd2 : d.getLast? ≠ some '_')
    (hm1 : containsDU (friendlyModel m) = false)
    (hm2 : (friendlyModel m).getLast? ≠ some '_') :
    splitOnDU (artifactStem d m p)
      = [d, friendlyModel m, 'p' :: 'a' :: 's' :: 's' :: (Nat.repr p).data] := by
  rw [artifactStem, splitOnDU_append _ d hd1 hd2,
    splitOnDU_append _ (friendlyModel m) hm1 hm2]
  rw [splitOnDU_no_sep _ ?_]
  refine containsDU_of_no_u _ ?_
  intro c hc
  simp only [List.mem_cons] at hc
  rcases hc with h | h | h | h | h
  · rw [h]; decide
  · rw [h]; decide
  · rw [h]; decide
  · rw [h]; decide
  · exact (repr_data_ne p c h).1

/-- Parsing a derived artifact stem, fully evaluated: the dataset comes back
unchanged, the model comes back with every underscore of its substituted form
turned into a space, and the pass count comes back as its decimal string. -/
theorem parse_artifactStem (d m : List Char) (p : Nat)
    (hd1 : containsDU d = false) (hd2 : d.getLast? ≠ some '_')
    (hm1 : containsDU (friendlyModel m) = false)
    (hm2 : (friendlyModel m).getLast? ≠ some '_') :
    parse_artifact_metadata (artifactStem d m p) =
      { dataset := d
        model := replaceChar '_' ' ' (friendlyModel m)
        passes := (Nat.repr p).data
        stem := artifactStem d m p } := by
  have hsplit := splitOnDU_artifactStem d m p hd1 hd2 hm1 hm2
  rw [parse_artifact_metadata, hsplit]
  have hstrip : stripPass ('p' :: 'a' :: 's' :: 's' :: (Nat.repr p).data)
      = (Nat.repr p).data := by
    show stripPass (Nat.repr p).data = (Nat.repr p).data
    exact stripPass_of_no_p _ (fun c hc => (repr_data_ne p c hc).2)
  simp only [List.headD, List.getD, List.get?, List.isPrefixOf, Option.getD_some,
    beq_self_eq_true, Bool.and_true, Bool.true_and, if_true, hstrip]
  rw [if_neg (repr_data_ne_nil p)]

/-! ### Helper lemmas about the relationship summary -/


theorem groupEntries_addToGroups_self (gs : List (String × List Extraction))
    (g : String) (e : Extraction) :
    groupEntries (addToGroups gs g e) g = groupEntries gs g ++ [e] := by
  induction gs with
  | nil => simp [addToGroups, groupEntries, List.find?]
  | cons p rest ih =>
    obtain ⟨k, es⟩ := p
    rw [addToGroups]
    by_cases hk : k = g
    · subst hk
      simp [groupEntries, List.find?]
    · rw [if_neg hk]
      simp only [groupEntries, List.find?] at *
      have hd : (decide (k = g)) = false := by simp [hk]
      simp [hd, ih]

theorem groupEntries_addToGroups_ne (gs : List (String × List Extraction))
    (g g' : String) (e : Extraction) (h : g' ≠ g) :
    groupEntries (addToGroups gs g e) g' = groupEntries gs g' := by
  have hgg : ¬ (g = g') := fun he => h he.symm
  induction gs with
  | nil => simp [addToGroups, groupEntries, List.find?, hgg]
  | cons p rest ih =>
    obtain ⟨k, es⟩ := p
    rw [addToGroups]
    by_cases hk : k = g
    · subst hk
      simp [groupEntries, List.find?, hgg]
    · rw [if_neg hk]
      by_cases hk' : k = g'
      · subst hk'
        simp [groupEntries, List.find?]
      · have h1 : (decide (k = g')) = false := by simp [hk']
        simp only [groupEntries, List.find?, h1] at *
        simp [ih]

theorem groupKeys_addToGroups (gs : List (String × List Extraction))
    (g : String) (e : Extraction) :
    groupKeys (addToGroups gs g e)
      = if g ∈ groupKeys gs then groupKeys gs else groupKeys gs ++ [g] := by
  induction gs with
  | nil => simp [addToGroups, groupKeys]
  | cons p rest ih =>
    obtain ⟨k, es⟩ := p
    rw [addToGroups]
    by_cases hk : k = g
    · subst hk
      simp [groupKeys]
    · rw [if_neg hk]
      have hgk : ¬ (g = k) := fun he => hk he.symm
      simp only [groupKeys, List.map, List.mem_cons] at *
      rw [ih]
      by_cases hmem : g ∈ rest.map Prod.fst
      · simp [hmem, hgk]
      · simp [hmem, hgk]

theorem addToGroups_inv (gs : List (String × List Extraction)) (g : String) (e : Extraction)
    (hinv : ∀ p ∈ gs, ∀ x ∈ p.2, effGroup x = some p.1) (hg : effGroup e = some g) :
    ∀ p ∈ addToGroups gs g e, ∀ x ∈ p.2, effGroup x = some p.1 := by
  induction gs with
  | nil =>
    intro p hp x hx
    simp [addToGroups] at hp
    subst hp
    simp at hx
    subst hx
    exact hg
  | cons q rest ih =>
    obtain ⟨k, es⟩ := q
    intro p hp x hx
    rw [addToGroups] at hp
    by_cases hk : k = g
    · subst hk
      rw [if_pos rfl] at hp
      rcases List.mem_cons.mp hp with rfl | hp'
      · rcases List.mem_append.mp hx with hx' | hx'
        · exact hinv (k, es) (List.mem_cons_self _ _) x hx'
        · simp at hx'
          subst hx'
          exact hg
      · exact hinv p (List.mem_cons_of_mem _ hp') x hx
    · rw [if_neg hk] at hp
      rcases List.mem_cons.mp hp with rfl | hp'
      · exact hinv (k, es) (List.mem_cons_self _ _) x hx
      · exact ih (fun q hq => hinv q (List.mem_cons_of_mem _ hq)) p hp' x hx

theorem groupKeys_nodup_addToGroups (gs : List (String × List Extraction))
    (g : String) (e : Extraction) (h : (groupKeys gs).Nodup) :
    (groupKeys (addToGroups gs g e)).Nodup := by
  rw [groupKeys_addToGroups]
  by_cases hmem : g ∈ groupKeys gs
  · simp [hmem, h]
  · simp only [hmem, if_false]
    rw [List.nodup_append]
    exact ⟨h, List.nodup_singleton g, by simpa using fun hg => hmem hg⟩



theorem relLoop_fst : ∀ (l : List Extraction) (lines : List String)
    (gs : List (String × List Extraction)),
    (relLoop lines gs l).1 = lines ++ l.filterMap warnOf := by
  intro l
  induction l with
  | nil => intro lines gs; simp [relLoop]
  | cons e rest ih =>
    intro lines gs
    rw [relLoop]
    cases hg : effGroup e with
    | none =>
      rw [ih]
      simp [warnOf, hg]
    | some g =>
      rw [ih]
      simp [warnOf, hg]

theorem relLoop_groupEntries : ∀ (l : List Extraction) (lines : List String)
    (gs : List (String × List Extraction)) (g : String),
    groupEntries (relLoop lines gs l).2 g
      = groupEntries gs g ++ l.filter (fun e => effGroup e = some g) := by
  intro l
  induction l with
  | nil => intro lines gs g; simp [relLoop]
  | cons e rest ih =>
    intro lines gs g
    rw [relLoop]
    cases hg : effGroup e with
    | none =>
      rw [ih]
      have : (decide (effGroup e = some g)) = false := by simp [hg]
      simp [List.filter, this]
    | some g' =>
      by_cases hgg : g' = g
      · subst hgg
        rw [ih, groupEntries_addToGroups_self]
        have : (decide (effGroup e = some g')) = true := by simp [hg]
        simp [List.filter, this]
      · rw [ih, groupEntries_addToGroups_ne _ _ _ _ (fun he => hgg he.symm)]
        have : (decide (effGroup e = some g)) = false := by
          simp [hg]
          exact hgg
        simp [List.filter, this]

theorem relLoop_inv : ∀ (l : List Extraction) (lines : List String)
    (gs : List (String × List Extraction)),
    (∀ p ∈ gs, ∀ x ∈ p.2, effGroup x = some p.1) →
    ∀ p ∈ (relLoop lines gs l).2, ∀ x ∈ p.2, effGroup x = some p.1 := by
  intro l
  induction l with
  | nil => intro lines gs hinv; exact hinv
  | cons e rest ih =>
    intro lines gs hinv
    rw [relLoop]
    cases hg : effGroup e with
    | none => exact ih _ _ hinv
    | some g => exact ih _ _ (addToGroups_inv gs g e hinv hg)

theorem relLoop_nodup : ∀ (l : List Extraction) (lines : List String)
    (gs : List (String × List Extraction)),
    (groupKeys gs).Nodup → (groupKeys (relLoop lines gs l).2).Nodup := by
  intro l
  induction l with
  | nil => intro lines gs h; exact h
  | cons e rest ih =>
    intro lines gs h
    rw [relLoop]
    cases hg : effGroup e with
    | none => exact ih _ _ h
    | some g => exact ih _ _ (groupKeys_nodup_addToGroups gs g e h)

theorem groupEntries_of_mem : ∀ (gs : List (String × List Extraction)),
    (groupKeys gs).Nodup → ∀ p ∈ gs, groupEntries gs p.1 = p.2 := by
  intro gs
  induction gs with
  | nil => intro _ p hp; simp at hp
  | cons q rest ih =>
    obtain ⟨k, es⟩ := q
    intro hnd p hp
    rcases List.mem_cons.mp hp with rfl | hp'
    · simp [groupEntries, List.find?]
    · have hk : k ≠ p.1 := by
        intro he
        have : p.1 ∈ groupKeys rest := List.mem_map_of_mem Prod.fst hp'
        rw [groupKeys, List.map] at hnd
        have := (List.nodup_cons.mp hnd).1
        rw [he] at this
        exact this (by simpa [groupKeys] using List.mem_map_of_mem Prod.fst hp')
      have hnd' : (groupKeys rest).Nodup := by
        rw [groupKeys, List.map] at hnd
        exact (List.nodup_cons.mp hnd).2
      have hd : (decide (k = p.1)) = false := by simp [hk]
      simp only [groupEntries, List.find?, hd]
      exact ih hnd' p hp'

theorem groupEntries_exists_of_ne_nil (gs : List (String × List Extraction)) (g : String)
    (h : groupEntries gs g ≠ []) :
    ∃ p ∈ gs, p.1 = g ∧ p.2 = groupEntries gs g := by
  cases hf : gs.find? (fun p => p.1 = g) with
  | none => simp [groupEntries, hf] at h
  | some p =>
    refine ⟨p, List.mem_of_find?_eq_some hf, ?_, ?_⟩
    · have := List.find?_some hf
      simpa using this
    · simp [groupEntries, hf]


/-! ### Claim theorems about stem derivation and metadata parsing -/

/-- C1 counterexample: for dataset `"x"`, model `"a/b:c"`, passes `2`, the
parser does not recover the model modulo the slash/colon-to-underscore
substitution.  The substituted model is `"a_b_c"`, but the parsed model is
`"a b c"` (the parser additionally turns every underscore into a space), so
parsing is not a left inverse of derivation modulo only that substitution,
even though the dataset and the pass count do come back. -/
theorem C1_counterexample :
    (parse_artifact_metadata (artifactStem "x".data "a/b:c".data 2)).dataset = "x".data ∧
    (parse_artifact_metadata (artifactStem "x".data "a/b:c".data 2)).passes = "2".data ∧
    (parse_artifact_metadata (artifactStem "x".data "a/b:c".data 2)).model = "a b c".data ∧
    friendlyModel "a/b:c".data = "a_b_c".data ∧
    "a b c".data ≠ "a_b_c".data ∧
    "a b c".data ≠ "a/b:c".data := by
  decide

/-- C1 (amended): for every dataset key that contains no `"__"` and does not
end in `'_'`, and every model whose slash/colon-substituted form contains no
`"__"` and does not end in `'_'`, parsing the derived artifact stem recovers
the same dataset key, the same pass count (as its decimal string), and the
model modulo replacing each `'/'`, `':'` and `'_'` by a space. -/
theorem C1_roundtrip_amended (d m : List Char) (p : Nat)
    (hd1 : containsDU d = false) (hd2 : d.getLast? ≠ some '_')
    (hm1 : containsDU (friendlyModel m) = false)
    (hm2 : (friendlyModel m).getLast? ≠ some '_') :
    (parse_artifact_metadata (artifactStem d m p)).dataset = d ∧
    (parse_artifact_metadata (artifactStem d m p)).model
      = replaceChar '_' ' ' (replaceChar ':' '_' (replaceChar '/' '_' m)) ∧
    (parse_artifact_metadata (artifactStem d m p)).passes = (Nat.repr p).data := by
  rw [parse_artifactStem d m p hd1 hd2 hm1 hm2]
  exact ⟨rfl, rfl, rfl⟩

/-- C1 witness: the amended round trip evaluated at dataset `"x"`,
model `"a/b:c"`, passes `2`. -/
theorem C1_roundtrip_amended_witness :
    (parse_artifact_metadata (artifactStem "x".data "a/b:c".data 2)).dataset = "x".data ∧
    (parse_artifact_metadata (artifactStem "x".data "a/b:c".data 2)).model
      = replaceChar '_' ' ' (replaceChar ':' '_' (replaceChar '/' '_' "a/b:c".data)) ∧
    (parse_artifact_metadata (artifactStem "x".data "a/b:c".data 2)).passes
      = (Nat.repr 2).data :=
  C1_roundtrip_amended "x".data "a/b:c".data 2
    (by decide) (by decide) (by decide) (by decide)

/-- C5: artifact stem derivation is a pure, deterministic function of the
`(dataset, model, passes)` triple — equal inputs give equal stems — and on
`(dataset := "x", model := "a/b:c", passes := 2)` it yields
`"x__a_b_c__pass2"`. -/
theorem C5_artifactStem_deterministic :
    (∀ (d₁ d₂ m₁ m₂ : List Char) (p₁ p₂ : Nat), d₁ = d₂ → m₁ = m₂ → p₁ = p₂ →
      artifactStem d₁ m₁ p₁ = artifactStem d₂ m₂ p₂) ∧
    artifactStem "x".data "a/b:c".data 2 = "x__a_b_c__pass2".data := by
  constructor
  · intro d₁ d₂ m₁ m₂ p₁ p₂ hd hm hp
    rw [hd, hm, hp]
  · decide

/-- C5 witness: the determinism conjunct applied at a concrete triple, and
the concrete derivation. -/
theorem C5_artifactStem_deterministic_witness :
    artifactStem "x".data "a/b:c".data 2 = artifactStem "x".data "a/b:c".data 2 ∧
    artifactStem "x".data "a/b:c".data 2 = "x__a_b_c__pass2".data :=
  ⟨C5_artifactStem_deterministic.1 "x".data "x".data "a/b:c".data "a/b:c".data 2 2
      rfl rfl rfl,
    C5_artifactStem_deterministic.2⟩

/-- C9: the metadata parser is total on arbitrary stems.  A stem without the
`"__"` delimiter parses to the whole string as dataset, an empty model and
pass count `"1"`; and whenever the third segment does not start with
`"pass"`, the pass count also defaults to `"1"`. -/
theorem C9_parse_total :
    (∀ s : List Char, containsDU s = false →
      parse_artifact_metadata s =
        { dataset := s, model := [], passes := ['1'], stem := s }) ∧
    (∀ s : List Char,
      List.isPrefixOf ['p', 'a', 's', 's'] ((splitOnDU s).getD 2 []) = false →
      (parse_artifact_metadata s).passes = ['1']) := by
  constructor
  · intro s h
    rw [parse_artifact_metadata, splitOnDU_no_sep s h]
    simp [List.getD, replaceChar, List.isPrefixOf]
  · intro s h
    rw [parse_artifact_metadata]
    simp only [h, Bool.false_eq_true, if_false]
    exact if_pos trivial

/-- C3 counterexample: the spec-modelled load algorithm applied to the
repository's actual dataset-file sources (there are no JSON dataset files
anywhere in the tree, so all three sources yield no entries) returns an
empty registry, while the registry in `datasets.py` contains the three
hardcoded entries — therefore the registry is not obtained by the described
search at load time. -/
theorem C3_counterexample :
    spec_load_registry [] [] [] = [] ∧
    DATASETS.map Prod.fst
      = ["romeo_quickstart", "medication_ner", "medication_relationship"] := by
  constructor
  · rfl
  · rfl

/-- C3 (amended): the dataset registry is a static in-code mapping (a dict
literal in `datasets.py`), holding exactly the three datasets
`romeo_quickstart`, `medication_ner`, `medication_relationship` in insertion
order, each stored under its own `key`; no file-system search is performed
at load time. -/
theorem C3_registry_amended :
    DATASETS.map Prod.fst
      = ["romeo_quickstart", "medication_ner", "medication_relationship"] ∧
    DATASETS.length = 3 ∧
    (∀ p ∈ DATASETS, p.2.key = p.1) := by
  refine ⟨rfl, rfl, ?_⟩
  intro p hp
  simp only [DATASETS, List.mem_cons, List.not_mem_nil, or_false] at hp
  rcases hp with rfl | rfl | rfl <;> rfl

/-- C3 witness: the amended claim evaluated on the first registry entry. -/
theorem C3_registry_amended_witness :
    ("romeo_quickstart", romeo_quickstart_config).2.key
      = ("romeo_quickstart", romeo_quickstart_config).1 :=
  C3_registry_amended.2.2 ("romeo_quickstart", romeo_quickstart_config)
    (List.mem_cons_self _ _)

/-- C4: for every key present in the registry, `get_dataset` returns the
stored configuration, whose `key` field equals the lookup key; for every
absent key it fails with the `KeyError` message `"Unknown dataset: ..."`.
The registry itself is an immutable constant, so lookup cannot change it. -/
theorem C4_get_dataset :
    (∀ p ∈ DATASETS, get_dataset p.1 = Except.ok p.2 ∧ p.2.key = p.1) ∧
    (∀ key : String, key ∉ DATASETS.map Prod.fst →
      get_dataset key = Except.error ("Unknown dataset: " ++ key)) := by
  constructor
  · intro p hp
    simp only [DATASETS, List.mem_cons, List.not_mem_nil, or_false] at hp
    rcases hp with rfl | rfl | rfl <;> exact ⟨rfl, rfl⟩
  · intro key h
    simp only [DATASETS, List.map, List.mem_cons, List.not_mem_nil, or_false, not_or] at h
    obtain ⟨h1, h2, h3⟩ := h
    have h1' : ¬ ("romeo_quickstart" = key) := fun e => h1 e.symm
    have h2' : ¬ ("medication_ner" = key) := fun e => h2 e.symm
    have h3' : ¬ ("medication_relationship" = key) := fun e => h3 e.symm
    rw [get_dataset]
    simp [DATASETS, List.find?, h1', h2', h3']

/-- C4 witness: lookup of a present key and of an absent key. -/
theorem C4_get_dataset_witness :
    (get_dataset "romeo_quickstart" = Except.ok romeo_quickstart_config ∧
      romeo_quickstart_config.key = "romeo_quickstart") ∧
    get_dataset "no_such_dataset"
      = Except.error ("Unknown dataset: " ++ "no_such_dataset") :=
  ⟨C4_get_dataset.1 ("romeo_quickstart", romeo_quickstart_config)
      (List.mem_cons_self _ _),
    C4_get_dataset.2 "no_such_dataset" (by decide)⟩

/-- C9 witness: the parser evaluated on a delimiter-free stem and on a stem
whose third segment does not start with `"pass"`. -/
theorem C9_parse_total_witness :
    parse_artifact_metadata "hello".data =
      { dataset := "hello".data, model := [], passes := ['1'], stem := "hello".data } ∧
    (parse_artifact_metadata "x__m__z".data).passes = ['1'] :=
  ⟨C9_parse_total.1 "hello".data (by decide),
    C9_parse_total.2 "x__m__z".data (by decide)⟩

/-- C6: in `_relationship_summary`, every extraction without a usable
`medication_group` attribute (missing attribute dict, missing key, or empty
value) gets a printed warning line naming its text and appears in no group
listing, while every extraction carrying a group value is listed under that
group exactly as often as it occurs in the document (in particular exactly
once for a single occurrence) and under no other group. -/
theorem C6_relationship_summary (result : AnnotatedDocument) (input_text : String)
    (e : Extraction) (he : e ∈ result.extractions) :
    (effGroup e = none →
      warnLine e ∈ (relLoop [] [] result.extractions).1 ∧
      warnLine e ∈ relationship_summary_lines result input_text ∧
      ∀ p ∈ (relLoop [] [] result.extractions).2, e ∉ p.2) ∧
    (∀ g, effGroup e = some g →
      (∀ p ∈ (relLoop [] [] result.extractions).2,
        List.count e p.2 = if p.1 = g then List.count e result.extractions else 0) ∧
      ∃ p ∈ (relLoop [] [] result.extractions).2, p.1 = g ∧ e ∈ p.2) := by
  have hfst : (relLoop [] [] result.extractions).1
      = result.extractions.filterMap warnOf := by
    rw [relLoop_fst]; rfl
  have hent : ∀ g, groupEntries (relLoop [] [] result.extractions).2 g
      = result.extractions.filter (fun x => effGroup x = some g) := by
    intro g
    rw [relLoop_groupEntries]
    rfl
  have hinv : ∀ p ∈ (relLoop [] [] result.extractions).2, ∀ x ∈ p.2, effGroup x = some p.1 :=
    relLoop_inv _ _ _ (by intro p hp; simp at hp)
  have hnd : (groupKeys (relLoop [] [] result.extractions).2).Nodup :=
    relLoop_nodup _ _ _ (by simp [groupKeys])
  constructor
  · intro hnone
    have h1 : warnLine e ∈ (relLoop [] [] result.extractions).1 := by
      rw [hfst]
      exact List.mem_filterMap.mpr ⟨e, he, by simp [warnOf, hnone]⟩
    refine ⟨h1, ?_, ?_⟩
    · simp only [relationship_summary_lines]
      refine List.mem_append_left _ ?_
      exact List.mem_cons_of_mem _ (List.mem_cons_of_mem _ h1)
    · intro p hp hx
      have := hinv p hp e hx
      rw [hnone] at this
      exact Option.noConfusion this
  · intro g hg
    constructor
    · intro p hp
      have hpe : p.2 = result.extractions.filter (fun x => effGroup x = some p.1) := by
        rw [← hent p.1]
        exact (groupEntries_of_mem _ hnd p hp).symm
      by_cases hpg : p.1 = g
      · rw [if_pos hpg, hpe, hpg]
        exact List.count_filter (by simp [hg])
      · rw [if_neg hpg]
        refine List.count_eq_zero.mpr ?_
        rw [hpe]
        intro hmem
        have := (List.mem_filter.mp hmem).2
        simp [hg] at this
        exact hpg this.symm
    · have hme : e ∈ groupEntries (relLoop [] [] result.extractions).2 g := by
        rw [hent g]
        exact List.mem_filter.mpr ⟨he, by simp [hg]⟩
      obtain ⟨p, hp, hpg, hpe⟩ :=
        groupEntries_exists_of_ne_nil _ g (List.ne_nil_of_mem hme)
      exact ⟨p, hp, hpg, by rw [hpe]; exact hme⟩



/-- C6 witness: a two-extraction document, one item without
`medication_group` (warned) and one grouped item (listed under its
group). -/
theorem C6_relationship_summary_witness :
    warnLine ({ extraction_class := "dosage", extraction_text := "100mg" } : Extraction) ∈
      (relLoop [] []
        [({ extraction_class := "dosage", extraction_text := "100mg" } : Extraction),
         ({ extraction_class := "medication", extraction_text := "Aspirin",
            attributes := some [("medication_group", "Aspirin")] } : Extraction)]).1 ∧
    ∃ p ∈ (relLoop [] []
        [({ extraction_class := "dosage", extraction_text := "100mg" } : Extraction),
         ({ extraction_class := "medication", extraction_text := "Aspirin",
            attributes := some [("medication_group", "Aspirin")] } : Extraction)]).2,
      p.1 = "Aspirin" ∧
      ({ extraction_class := "medication", extraction_text := "Aspirin",
         attributes := some [("medication_group", "Aspirin")] } : Extraction) ∈ p.2 := by
  have h1 := C6_relationship_summary
    ({ extractions :=
      [({ extraction_class := "dosage", extraction_text := "100mg" } : Extraction),
       ({ extraction_class := "medication", extraction_text := "Aspirin",
          attributes := some [("medication_group", "Aspirin")] } : Extraction)] } : AnnotatedDocument)
    "input"
    ({ extraction_class := "dosage", extraction_text := "100mg" } : Extraction)
    (List.mem_cons_self _ _)
  have h2 := C6_relationship_summary
    ({ extractions :=
      [({ extraction_class := "dosage", extraction_text := "100mg" } : Extraction),
       ({ extraction_class := "medication", extraction_text := "Aspirin",
          attributes := some [("medication_group", "Aspirin")] } : Extraction)] } : AnnotatedDocument)
    "input"
    ({ extraction_class := "medication", extraction_text := "Aspirin",
       attributes := some [("medication_group", "Aspirin")] } : Extraction)
    (List.mem_cons_of_mem _ (List.mem_cons_self _ _))
  exact ⟨(h1.1 rfl).1, (h2.2 "Aspirin" rfl).2⟩




/-- C2 (code bug): resolving the effective extraction-pass count with no
CLI override evaluates `config.extraction_passes`, but the `DatasetConfig`
dataclass has no such field (it has `artifact_prefix` instead of the
`extraction_passes` the spec describes), so the resolution raises
`AttributeError` instead of using a dataset default; a truthy override is
used as-is because `or` short-circuits before the attribute access. -/
theorem C2_extraction_passes_attribute_error (config : DatasetConfig) :
    resolve_extraction_passes none config
      = Except.error "AttributeError: DatasetConfig object has no attribute extraction_passes" ∧
    ∀ n : Int, n ≠ 0 →
      resolve_extraction_passes (some n) config = Except.ok (.int n) := by
  constructor
  · rfl
  · intro n hn
    rw [resolve_extraction_passes, if_neg hn]

/-- C2 witness: the failing no-override resolution and a working override
resolution, on the `romeo_quickstart` configuration. -/
theorem C2_extraction_passes_attribute_error_witness :
    resolve_extraction_passes none romeo_quickstart_config
      = Except.error "AttributeError: DatasetConfig object has no attribute extraction_passes" ∧
    resolve_extraction_passes (some 3) romeo_quickstart_config = Except.ok (.int 3) :=
  ⟨(C2_extraction_passes_attribute_error romeo_quickstart_config).1,
    (C2_extraction_passes_attribute_error romeo_quickstart_config).2 3 (by decide)⟩

/-- C8: when both the positional dataset argument and the `--dataset` flag
are supplied (truthy, as `argparse` choices guarantee), the CLI proceeds
with that dataset exactly when the two agree, and otherwise fails with the
parse error raised before any dataset is run. -/
theorem C8_cli_dataset_agreement (d p : String) (hd : d ≠ "") (hp : p ≠ "") :
    (d = p → select_dataset (some d) (some p) = Except.ok (some d)) ∧
    (d ≠ p → select_dataset (some d) (some p)
      = Except.error "--dataset and positional dataset argument must match.") := by
  have htd : pyTruthy (some d) = true := by simp [pyTruthy, hd]
  constructor
  · intro he
    subst he
    rw [select_dataset, if_neg (by simp), htd]
    simp
  · intro hne
    rw [select_dataset, if_pos ?_]
    refine ⟨by simp [pyTruthy, hd], by simp [pyTruthy, hp], by simp [hne]⟩

/-- C8 witness: an agreeing pair proceeds, a disagreeing pair errors. -/
theorem C8_cli_dataset_agreement_witness :
    select_dataset (some "romeo_quickstart") (some "romeo_quickstart")
      = Except.ok (some "romeo_quickstart") ∧
    select_dataset (some "romeo_quickstart") (some "medication_ner")
      = Except.error "--dataset and positional dataset argument must match." :=
  ⟨(C8_cli_dataset_agreement "romeo_quickstart" "romeo_quickstart"
      (by decide) (by decide)).1 rfl,
    (C8_cli_dataset_agreement "romeo_quickstart" "medication_ner"
      (by decide) (by decide)).2 (by decide)⟩

/-- C10 (code bug): falsy input-text overrides are indeed treated as
absent — an empty `--input-text` and an empty `--input-file` contents both
fall back to the dataset default — but an `--extraction-passes` value of
`0` does not fall back: the attempted fallback evaluates the non-existent
`config.extraction_passes` and raises `AttributeError`. -/
theorem C10_falsy_overrides (config : DatasetConfig) :
    resolve_input_text (resolve_input_text_override none (some "")) config
      = config.default_input_text ∧
    resolve_input_text (resolve_input_text_override (some "") none) config
      = config.default_input_text ∧
    resolve_extraction_passes (some 0) config
      = Except.error "AttributeError: DatasetConfig object has no attribute extraction_passes" := by
  exact ⟨rfl, rfl, rfl⟩




theorem scanStep_skip (acc : List (String × ArtEntry) × List (String × String))
    (f : String × String) (h : isArtifactFile f.1 = false) : scanStep acc f = acc := by
  by_cases hs : f.1 ∈ specialNames
  · rw [scanStep, if_pos hs]
  · rw [isArtifactFile, if_neg hs] at h
    rw [scanStep, if_neg hs]
    rw [if_neg (by simpa using h)]

theorem foldl_scanStep_skip : ∀ (files : List (String × String))
    (acc : List (String × ArtEntry) × List (String × String)),
    (∀ f ∈ files, isArtifactFile f.1 = false) → files.foldl scanStep acc = acc := by
  intro files
  induction files with
  | nil => intro acc _; rfl
  | cons f rest ih =>
    intro acc h
    rw [List.foldl_cons, scanStep_skip acc f (h f (List.mem_cons_self _ _)),
      ih acc (fun x hx => h x (List.mem_cons_of_mem _ hx))]

/-- C7: when the scanned output directory contains no artifact
(`.jsonl`/`.html`) files, the regenerated index page body is the
no-artifacts placeholder paragraph (no table rows), and the regenerated
comparison page's embedded manifest contains no run entries at all. -/
theorem C7_empty_outputs (files : List (String × String))
    (h : ∀ f ∈ files, isArtifactFile f.1 = false) :
    indexBody files = "<p>No artifacts have been generated yet.</p>" ∧
    comparisonManifest files = [] := by
  have hs : scanFiles files = ([], []) := foldl_scanStep_skip files ([], []) h
  constructor
  · rw [indexBody, indexRows, hs]
    simp [List.mergeSort]
  · rw [comparisonManifest, hs]
    simp [List.mergeSort]

/-- C7 witness: a directory holding only the generated pages and an
unrelated text file. -/
theorem C7_empty_outputs_witness :
    indexBody [("index.html", ""), ("jsonl_viewer.html", ""), ("comparison.html", ""),
        ("notes.txt", "x")]
      = "<p>No artifacts have been generated yet.</p>" ∧
    comparisonManifest [("index.html", ""), ("jsonl_viewer.html", ""),
        ("comparison.html", ""), ("notes.txt", "x")] = [] :=
  C7_empty_outputs _ (by decide)


end LXS
